import Mathlib

/-!
Verification of the gerrit-mcp-server tool handlers (src/index.ts).

The development shallowly embeds the server request handlers: JavaScript
values flowing through axios are modelled by `JVal`, remote calls and the
external repo command by an `Effect` trace, and the remote system by a
`GerritEnv` of oracle functions.  Thrown JavaScript errors are modelled by
`Except GerritError`.  Each tool case of the CallToolRequestSchema handler
becomes a Lean function returning the result together with the ordered list
of effects it attempted.
-/

/-- JSON-like JavaScript values, as they appear in axios response data and
in error payloads of the Gerrit REST API. -/
inductive JVal where
  | null
  | bool (b : Bool)
  | num (n : Int)
  | str (s : String)
  | arr (elems : List JVal)
  | obj (fields : List (String × JVal))

/-- JavaScript truthiness of a `JVal` (empty string, zero, false and null
are falsy; objects and arrays are always truthy). -/
def jTruthy : JVal → Bool
  | .null => false
  | .bool b => b
  | .num n => n != 0
  | .str s => s != ""
  | .arr _ => true
  | .obj _ => true

/-- JavaScript property access `v.k` for a named field: only objects yield
a value, every other shape gives undefined (`none`). -/
def jvalField (v : JVal) (k : String) : Option JVal :=
  match v with
  | .obj fields => (fields.find? (fun p => p.1 == k)).map Prod.snd
  | _ => none

mutual

/-- How a `JVal` prints inside a JavaScript template literal. -/
def templateToString : JVal → String
  | .null => "null"
  | .bool true => "true"
  | .bool false => "false"
  | .num n => toString n
  | .str s => s
  | .arr elems => joinList elems
  | .obj _ => "[object Object]"

/-- `Array.prototype.toString`: elements joined with commas, with null
printing as the empty string inside an array. -/
def joinList : List JVal → String
  | [] => ""
  | [.null] => ""
  | [v] => templateToString v
  | .null :: vs => "," ++ joinList vs
  | v :: vs => templateToString v ++ "," ++ joinList vs

end

/-- The four magic characters prepended by Gerrit to JSON bodies against
cross-site script inclusion: close paren, close bracket, close brace and
a single quote (code points 41, 93, 125, 39). -/
def gerritMagic : String :=
  String.mk [Char.ofNat 41, Char.ofNat 93, Char.ofNat 125, Char.ofNat 39]

/-- `parseGerritResponse` from src/index.ts: if the data is a string that
starts with the magic characters, strip the first four characters and parse
the remainder as JSON; otherwise return the data unchanged.  `JSON.parse`
is an external library call and is passed in as `jsonParse`; its failure
(a thrown SyntaxError) is the `Except.error` case. -/
def parseGerritResponse (jsonParse : String → Except String JVal) (data : JVal) :
    Except String JVal :=
  match data with
  | .str s =>
      if gerritMagic.data.isPrefixOf s.data then jsonParse (s.drop 4)
      else .ok (.str s)
  | v => .ok v

/-- A thrown JavaScript error as the tool handlers observe it: `message` is
`e.message`, and `responseData` is `e.response?.data` (already unwrapped by
the response interceptor), `none` when the error carries no response. -/
structure GerritError where
  responseData : Option JVal
  message : String

/-- A JavaScript `Error` with no attached response (e.g. `throw new Error`
or an `execSync` failure). -/
def jsError (msg : String) : GerritError :=
  { responseData := none, message := msg }

/-- The failure detail `e.response?.data || e.message` used by the per-item
catch blocks of submit_changes and batch_review_submit_by_topic. -/
def errDetail (e : GerritError) : String :=
  match e.responseData with
  | some d => if jTruthy d then templateToString d else e.message
  | none => e.message

/-- The message `error.response?.data?.message || error.message` computed
by the top-level catch of the CallToolRequestSchema handler. -/
def topErrMessage (e : GerritError) : String :=
  match e.responseData.bind (fun d => jvalField d "message") with
  | some m => if jTruthy m then templateToString m else e.message
  | none => e.message

example : parseGerritResponse (fun s => .ok (.str s)) (.str (gerritMagic ++ "[]")) =
    .ok (.str "[]") := rfl

example : errDetail { responseData := some (.str "merge conflict"), message := "m" } =
    "merge conflict" := rfl

example : errDetail { responseData := some (.str ""), message := "m" } = "m" := rfl

/-- Revision metadata consumed by the handlers: only the sequential
patchset number field of the revision record. -/
structure RevisionInfo where
  number : Int
deriving DecidableEq

/-- A Gerrit change as the handlers consume it (field `number` models the
JSON field labelled with an underscore and the word number, `revisions` the
map from revision id to revision metadata). -/
structure Change where
  number : Int
  project : String
  currentRevision : String
  revisions : List (String × RevisionInfo)
  subject : String
deriving DecidableEq

/-- The JavaScript indexing of the revisions map at the current revision
pointer: undefined (`none`) when the key is absent. -/
def lookupRev (c : Change) : Option RevisionInfo :=
  (c.revisions.find? (fun p => p.1 == c.currentRevision)).map Prod.snd

/-- One observable effect of a tool handler: an HTTP request, the fixed
inter-step delay, or the external repo download command. -/
inductive Effect where
  | getChanges (q : String) (n : Option Int) (opts : List String)
  | getDetail (changeId : String) (opts : List String)
  | postReview (changeId : String) (revisionId : String)
      (labels : Option (List (String × Int))) (message : Option String)
  | postSubmit (changeId : String) (waitForMerge : Bool)
  | sleep (ms : Nat)
  | repoDownload (project : String) (changeNumber : Int) (patchset : Int)
deriving DecidableEq

/-- An effect that mutates remote or local state: the review post, the
submit post, and the external download command.  The changes queries and
the delay are read-only. -/
def Effect.isMutating : Effect → Bool
  | .postReview _ _ _ _ => true
  | .postSubmit _ _ => true
  | .repoDownload _ _ _ => true
  | _ => false

/-- The environment of external collaborators: the Gerrit REST API and the
child-process runner.  `queryChanges q opts` models a GET of the changes
endpoint followed by the cast of the response body to an array of change
records (a null body and an empty array both come back as `[]`, which is
exactly the set of bodies sent to the nothing-found branch by the source
check of falsiness or zero length).  `fetch` models the GET endpoints whose
body is returned verbatim, `post` the mutating calls and the repo command,
and `stringify` the external pretty printer applied to fetched bodies. -/
structure GerritEnv where
  queryChanges : String → List String → Except GerritError (List Change)
  fetch : Effect → Except GerritError JVal
  post : Effect → Except GerritError Unit
  stringify : JVal → String

/-- The newline used to join per-item result lines. -/
def newlineStr : String := String.mk [Char.ofNat 10]

/-- The query string built for a topic: the word topic, a colon, and the
topic in double quotes. -/
def topicQuery (t : String) : String := "topic:\"" ++ t ++ "\""

/-- Tool responses: one text block plus the error flag. -/
structure ToolResult where
  text : String
  isError : Bool
deriving DecidableEq

/-- Success line of batch_review_submit_by_topic for one change. -/
def processedLine (changeId : String) (subject : String) : String :=
  "✓ Processed " ++ changeId ++ ": " ++ subject

/-- Failure line of submit_changes and batch_review_submit_by_topic for
one change: the identifier and `e.response?.data || e.message`. -/
def failedLine (changeId : String) (e : GerritError) : String :=
  "✗ Failed " ++ changeId ++ ": " ++ errDetail e

/-- Success line of submit_changes for one change. -/
def submittedLine (changeId : String) : String :=
  "✓ Submitted " ++ changeId

/-- Success line of sync_gerrit_to_local for one change. -/
def syncedLine (changeNumber patchset : Int) (project subject : String) : String :=
  "✓ Synced " ++ toString changeNumber ++ "/" ++ toString patchset ++
    " in " ++ project ++ ": " ++ subject

/-- Failure line of sync_gerrit_to_local for one change: the identifier,
the project, and the message of the caught execSync error. -/
def syncFailedLine (changeNumber : Int) (project : String) (e : GerritError) : String :=
  "✗ Failed " ++ toString changeNumber ++ " in " ++ project ++ ": " ++ e.message

/-- The review POST issued by batch_review_submit_by_topic: the current
revision of the change, the two labels Verified and Code-Review, and the
fixed audit message. -/
def reviewEffect (voteVerified voteReview : Int) (changeId : String) : Effect :=
  .postReview changeId "current"
    (some [("Verified", voteVerified), ("Code-Review", voteReview)])
    (some "Batch review and submit by MCP Server")

/-- The submit POST issued by submit_changes and by
batch_review_submit_by_topic, carrying wait_for_merge = true. -/
def submitEffect (changeId : String) : Effect :=
  .postSubmit changeId true

/-- The loop body of batch_review_submit_by_topic for one change: vote,
then on success delay 500 ms and submit; the first raised failure is
caught and becomes the failure line, skipping the remaining steps of this
change only.  Returns the result line and the effects attempted. -/
def processTopicChange (post : Effect → Except GerritError Unit)
    (voteVerified voteReview : Int) (c : Change) : String × List Effect :=
  let changeId := toString c.number
  match post (reviewEffect voteVerified voteReview changeId) with
  | .error e => (failedLine changeId e, [reviewEffect voteVerified voteReview changeId])
  | .ok _ =>
      match post (submitEffect changeId) with
      | .error e =>
          (failedLine changeId e,
           [reviewEffect voteVerified voteReview changeId, .sleep 500, submitEffect changeId])
      | .ok _ =>
          (processedLine changeId c.subject,
           [reviewEffect voteVerified voteReview changeId, .sleep 500, submitEffect changeId])

/-- The for loop of batch_review_submit_by_topic: items strictly in query
order, one result line pushed per item. -/
def topicLoop (post : Effect → Except GerritError Unit)
    (voteVerified voteReview : Int) : List Change → List String × List Effect
  | [] => ([], [])
  | c :: cs =>
      let r := processTopicChange post voteVerified voteReview c
      let rest := topicLoop post voteVerified voteReview cs
      (r.1 :: rest.1, r.2 ++ rest.2)

/-- The batch_review_submit_by_topic tool case: resolve the open changes of
the topic, answer the nothing-found line on an empty set, otherwise run the
per-item loop and join the lines.  Vote defaults are 1 (Verified) and
2 (Code-Review). -/
def batchReviewSubmitByTopic (env : GerritEnv) (topic : String)
    (voteVerified voteReview : Option Int) : Except GerritError ToolResult × List Effect :=
  let vV := voteVerified.getD 1
  let vR := voteReview.getD 2
  let q := topicQuery topic ++ " status:open"
  match env.queryChanges q [] with
  | .error e => (.error e, [.getChanges q none []])
  | .ok changes =>
      if changes.isEmpty then
        (.ok { text := "No open changes found for topic: " ++ topic, isError := false },
         [.getChanges q none []])
      else
        let r := topicLoop env.post vV vR changes
        (.ok { text := String.intercalate newlineStr r.1, isError := false },
         .getChanges q none [] :: r.2)

/-- The repo download command for one change:
`repo download <project> <change-number>/<patchset-number>`. -/
def downloadEffect (c : Change) (rev : RevisionInfo) : Effect :=
  .repoDownload c.project c.number rev.number

/-- The guarded body of the sync loop for one change whose patchset was
extracted: run the download command; a caught failure becomes the failure
line of this change only. -/
def syncStep (post : Effect → Except GerritError Unit) (c : Change)
    (rev : RevisionInfo) : String × List Effect :=
  match post (downloadEffect c rev) with
  | .ok _ => (syncedLine c.number rev.number c.project c.subject, [downloadEffect c rev])
  | .error e => (syncFailedLine c.number c.project e, [downloadEffect c rev])

/-- The TypeError raised when the revisions map has no entry for the
current revision pointer and the patchset number of undefined is read.
This extraction happens before the try block of the loop body, so the
error escapes the per-item catch. -/
def undefinedRevisionError : GerritError :=
  jsError ("Cannot read properties of undefined (reading " ++
    String.mk [Char.ofNat 39] ++ "_number" ++ String.mk [Char.ofNat 39] ++ ")")

/-- The sync loop body for one change: extract the current revision record
(outside the try block, so its failure is thrown), then run the guarded
download step. -/
def processSyncChange (post : Effect → Except GerritError Unit) (c : Change) :
    Except GerritError (String × List Effect) :=
  match lookupRev c with
  | none => .error undefinedRevisionError
  | some rev => .ok (syncStep post c rev)

/-- The for loop of sync_gerrit_to_local: items strictly in query order;
a thrown extraction error aborts the loop, a caught download failure only
ends its own item. -/
def syncLoop (post : Effect → Except GerritError Unit) :
    List Change → Except GerritError (List String) × List Effect
  | [] => (.ok [], [])
  | c :: cs =>
      match processSyncChange post c with
      | .error e => (.error e, [])
      | .ok r =>
          match syncLoop post cs with
          | (.ok lines, tr) => (.ok (r.1 :: lines), r.2 ++ tr)
          | (.error e, tr) => (.error e, r.2 ++ tr)

/-- JavaScript truthiness of an optional string argument: absent and the
empty string are both falsy. -/
def optTruthy : Option String → Bool
  | some s => s != ""
  | none => false

/-- The query selection of sync_gerrit_to_local: a truthy topic wins, else
a truthy changeId is used verbatim, else nothing (the thrown
missing-selector error). -/
def syncQuery (topic changeId : Option String) : Option String :=
  if optTruthy topic then some (topicQuery (topic.getD ""))
  else if optTruthy changeId then changeId
  else none

/-- The sync_gerrit_to_local tool case: build the query or throw the
missing-selector error before any remote call, resolve the changes, answer
the nothing-found line on an empty set, otherwise run the download loop
and join the lines. -/
def syncGerritToLocal (env : GerritEnv) (topic changeId : Option String) :
    Except GerritError ToolResult × List Effect :=
  match syncQuery topic changeId with
  | none => (.error (jsError "Either topic or changeId must be provided"), [])
  | some q =>
      match env.queryChanges q ["CURRENT_REVISION"] with
      | .error e => (.error e, [.getChanges q none ["CURRENT_REVISION"]])
      | .ok changes =>
          if changes.isEmpty then
            (.ok { text := "No changes found.", isError := false },
             [.getChanges q none ["CURRENT_REVISION"]])
          else
            match syncLoop env.post changes with
            | (.ok lines, tr) =>
                (.ok { text := String.intercalate newlineStr lines, isError := false },
                 .getChanges q none ["CURRENT_REVISION"] :: tr)
            | (.error e, tr) => (.error e, .getChanges q none ["CURRENT_REVISION"] :: tr)

/-- The list_changes tool case (query default status:open, limit default
10); the fetched body is pretty printed verbatim. -/
def listChanges (env : GerritEnv) (query : Option String) (limit : Option Int) :
    Except GerritError ToolResult × List Effect :=
  let q := query.getD "status:open"
  let n := limit.getD 10
  match env.fetch (.getChanges q (some n) []) with
  | .error e => (.error e, [.getChanges q (some n) []])
  | .ok data =>
      (.ok { text := env.stringify data, isError := false }, [.getChanges q (some n) []])

/-- The get_change_detail tool case. -/
def getChangeDetail (env : GerritEnv) (changeId : String) :
    Except GerritError ToolResult × List Effect :=
  let eff := Effect.getDetail changeId ["CURRENT_REVISION", "CURRENT_COMMIT", "LABELS"]
  match env.fetch eff with
  | .error e => (.error e, [eff])
  | .ok data => (.ok { text := env.stringify data, isError := false }, [eff])

/-- The set_review tool case (revision default current). -/
def setReview (env : GerritEnv) (changeId : String) (revisionId : Option String)
    (message : Option String) (labels : Option (List (String × Int))) :
    Except GerritError ToolResult × List Effect :=
  let eff := Effect.postReview changeId (revisionId.getD "current") labels message
  match env.post eff with
  | .error e => (.error e, [eff])
  | .ok _ =>
      (.ok { text := "Successfully posted review to " ++ changeId, isError := false }, [eff])

/-- The loop body of submit_changes for one change id. -/
def processSubmitChange (post : Effect → Except GerritError Unit) (changeId : String) :
    String × List Effect :=
  match post (submitEffect changeId) with
  | .ok _ => (submittedLine changeId, [submitEffect changeId])
  | .error e => (failedLine changeId e, [submitEffect changeId])

/-- The for loop of submit_changes. -/
def submitLoop (post : Effect → Except GerritError Unit) :
    List String → List String × List Effect
  | [] => ([], [])
  | cid :: cids =>
      let r := processSubmitChange post cid
      let rest := submitLoop post cids
      (r.1 :: rest.1, r.2 ++ rest.2)

/-- The submit_changes tool case. -/
def submitChanges (env : GerritEnv) (changeIds : List String) :
    Except GerritError ToolResult × List Effect :=
  let r := submitLoop env.post changeIds
  (.ok { text := String.intercalate newlineStr r.1, isError := false }, r.2)

/-- A validated tool-call request, one constructor per registered tool plus
the fall-through for an unregistered name. -/
inductive ToolRequest where
  | listChangesReq (query : Option String) (limit : Option Int)
  | getChangeDetailReq (changeId : String)
  | setReviewReq (changeId : String) (revisionId : Option String)
      (message : Option String) (labels : Option (List (String × Int)))
  | submitChangesReq (changeIds : List String)
  | batchReviewSubmitByTopicReq (topic : String) (voteVerified voteReview : Option Int)
  | syncGerritToLocalReq (topic changeId : Option String)
  | unknownReq (name : String)

/-- The switch of the CallToolRequestSchema handler, before the outer
catch.  The default case throws the unknown-tool error. -/
def dispatch (env : GerritEnv) : ToolRequest → Except GerritError ToolResult × List Effect
  | .listChangesReq q n => listChanges env q n
  | .getChangeDetailReq cid => getChangeDetail env cid
  | .setReviewReq cid rid msg labels => setReview env cid rid msg labels
  | .submitChangesReq cids => submitChanges env cids
  | .batchReviewSubmitByTopicReq t vV vR => batchReviewSubmitByTopic env t vV vR
  | .syncGerritToLocalReq t cid => syncGerritToLocal env t cid
  | .unknownReq name => (.error (jsError ("Unknown tool: " ++ name)), [])

/-- The whole CallToolRequestSchema handler: the switch wrapped in the
outer catch, which converts any thrown error into a text response with the
error flag set. -/
def handleToolCall (env : GerritEnv) (req : ToolRequest) : ToolResult × List Effect :=
  match dispatch env req with
  | (.ok r, tr) => (r, tr)
  | (.error e, tr) => ({ text := "Error: " ++ topErrMessage e, isError := true }, tr)

theorem topicLoop_fst (post : Effect → Except GerritError Unit) (vV vR : Int)
    (cs : List Change) :
    (topicLoop post vV vR cs).1 = cs.map (fun c => (processTopicChange post vV vR c).1) := by
  induction cs with
  | nil => rfl
  | cons c cs ih => simp [topicLoop, ih]

theorem topicLoop_snd (post : Effect → Except GerritError Unit) (vV vR : Int)
    (cs : List Change) :
    (topicLoop post vV vR cs).2 =
      (cs.map (fun c => (processTopicChange post vV vR c).2)).flatten := by
  induction cs with
  | nil => rfl
  | cons c cs ih => simp [topicLoop, ih]

theorem syncLoop_eq (post : Effect → Except GerritError Unit)
    (revOf : Change → RevisionInfo) (cs : List Change)
    (h : ∀ c ∈ cs, lookupRev c = some (revOf c)) :
    syncLoop post cs =
      (.ok (cs.map fun c => (syncStep post c (revOf c)).1),
       (cs.map fun c => (syncStep post c (revOf c)).2).flatten) := by
  induction cs with
  | nil => rfl
  | cons c cs ih =>
      have hc : lookupRev c = some (revOf c) := h c (List.mem_cons_self c cs)
      have ih2 := ih (fun x hx => h x (List.mem_cons_of_mem _ hx))
      simp [syncLoop, processSyncChange, hc, ih2]

theorem dispatch_ok_isError_false (env : GerritEnv) (req : ToolRequest) (r : ToolResult)
    (h : (dispatch env req).1 = .ok r) : r.isError = false := by
  cases req <;>
    simp only [dispatch, listChanges, getChangeDetail, setReview, submitChanges,
      batchReviewSubmitByTopic, syncGerritToLocal] at h <;>
    (repeat' split at h) <;> first
      | (cases h; rfl)
      | simp_all

/-- A probe standing in for JSON.parse in witnesses. -/
def jsonParseProbe : String → Except String JVal := fun s => .ok (.str s)

/-- An environment whose queries resolve to nothing and whose calls all
succeed. -/
def envEmpty : GerritEnv where
  queryChanges := fun _ _ => .ok []
  fetch := fun _ => .ok .null
  post := fun _ => .ok ()
  stringify := fun _ => ""

/-- Claim C2: for every raw body that is a string beginning with the
4-character anti-XSS magic characters, the unwrapper returns exactly the
result of JSON-parsing the body with those 4 characters removed; every
input not beginning with them (including non-string values) is returned
unchanged. -/
theorem claim_C2_response_unwrapper (jsonParse : String → Except String JVal) :
    gerritMagic.length = 4 ∧
    (∀ s : String, gerritMagic.data.isPrefixOf s.data = true →
      parseGerritResponse jsonParse (JVal.str s) = jsonParse (s.drop 4)) ∧
    (∀ v : JVal, (∀ s : String, v = JVal.str s → gerritMagic.data.isPrefixOf s.data = false) →
      parseGerritResponse jsonParse v = .ok v) := by
  refine ⟨rfl, ?_, ?_⟩
  · intro s hs
    simp [parseGerritResponse, hs]
  · intro v hv
    cases v with
    | str s => simp [parseGerritResponse, hv s rfl]
    | null => rfl
    | bool b => rfl
    | num n => rfl
    | arr es => rfl
    | obj fs => rfl

/-- Witness for C2: a prefixed body is parsed with the magic stripped, an
unprefixed string and a non-string value come back unchanged. -/
theorem claim_C2_witness :
    parseGerritResponse jsonParseProbe (JVal.str (gerritMagic ++ "[1]")) =
      jsonParseProbe ((gerritMagic ++ "[1]").drop 4) ∧
    parseGerritResponse jsonParseProbe (JVal.str "plain") = .ok (JVal.str "plain") ∧
    parseGerritResponse jsonParseProbe (JVal.num 7) = .ok (JVal.num 7) := by
  refine ⟨?_, ?_, ?_⟩
  · exact (claim_C2_response_unwrapper jsonParseProbe).2.1 _ (by decide)
  · refine (claim_C2_response_unwrapper jsonParseProbe).2.2 _ ?_
    intro s hs
    cases hs
    decide
  · exact (claim_C2_response_unwrapper jsonParseProbe).2.2 _ (fun s hs => by cases hs)

/-- Claim C5: invoking sync_gerrit_to_local with neither topic nor change
identifier supplied fails with the missing-selector error before any
network call: the effect trace is empty and the tool answer carries the
error flag. -/
theorem claim_C5_missing_selector (env : GerritEnv) :
    syncGerritToLocal env none none =
      (.error (jsError "Either topic or changeId must be provided"), []) ∧
    handleToolCall env (ToolRequest.syncGerritToLocalReq none none) =
      ({ text := "Error: Either topic or changeId must be provided", isError := true }, []) := by
  exact ⟨rfl, rfl⟩

/-- Claim C10: a tool-call request whose name matches no registered tool
performs no remote call and answers the unknown-tool error text with the
error flag set. -/
theorem claim_C10_unknown_tool (env : GerritEnv) (name : String) :
    handleToolCall env (ToolRequest.unknownReq name) =
      ({ text := "Error: Unknown tool: " ++ name, isError := true }, []) := by
  have hlit : ("Error: " ++ "Unknown tool: " : String) = "Error: Unknown tool: " := by decide
  simp [handleToolCall, dispatch, topErrMessage, jsError]
  rw [← String.append_assoc, hlit]

/-- Claim C4: a batch invocation whose query resolves to an empty item set
answers exactly the single nothing-found line and attempts no mutating
effect. -/
theorem claim_C4_empty_resolution (env : GerritEnv) (topic : String)
    (voteVerified voteReview : Option Int) (t cid : Option String) (q : String)
    (hb : env.queryChanges (topicQuery topic ++ " status:open") [] = .ok [])
    (hq : syncQuery t cid = some q)
    (hs : env.queryChanges q ["CURRENT_REVISION"] = .ok []) :
    batchReviewSubmitByTopic env topic voteVerified voteReview =
      (.ok { text := "No open changes found for topic: " ++ topic, isError := false },
       [.getChanges (topicQuery topic ++ " status:open") none []]) ∧
    (batchReviewSubmitByTopic env topic voteVerified voteReview).2.filter Effect.isMutating = [] ∧
    syncGerritToLocal env t cid =
      (.ok { text := "No changes found.", isError := false },
       [.getChanges q none ["CURRENT_REVISION"]]) ∧
    (syncGerritToLocal env t cid).2.filter Effect.isMutating = [] := by
  have hbatch : batchReviewSubmitByTopic env topic voteVerified voteReview =
      (.ok { text := "No open changes found for topic: " ++ topic, isError := false },
       [.getChanges (topicQuery topic ++ " status:open") none []]) := by
    simp [batchReviewSubmitByTopic, hb]
  have hsync : syncGerritToLocal env t cid =
      (.ok { text := "No changes found.", isError := false },
       [.getChanges q none ["CURRENT_REVISION"]]) := by
    simp [syncGerritToLocal, hq, hs]
  refine ⟨hbatch, ?_, hsync, ?_⟩
  · rw [hbatch]; rfl
  · rw [hsync]; rfl

/-- Witness for C4 with a concrete empty-resolving environment. -/
theorem claim_C4_witness :
    batchReviewSubmitByTopic envEmpty "t" none none =
      (.ok { text := "No open changes found for topic: t", isError := false },
       [.getChanges (topicQuery "t" ++ " status:open") none []]) ∧
    syncGerritToLocal envEmpty (some "x") none =
      (.ok { text := "No changes found.", isError := false },
       [.getChanges (topicQuery "x") none ["CURRENT_REVISION"]]) := by
  have h := claim_C4_empty_resolution envEmpty "t" none none (some "x") none
    (topicQuery "x") rfl rfl rfl
  exact ⟨h.1, h.2.2.1⟩

/-- First sample change. -/
def changeA : Change :=
  { number := 1, project := "platform/a", currentRevision := "revA",
    revisions := [("revA", { number := 3 })], subject := "Fix A" }

/-- Second sample change. -/
def changeB : Change :=
  { number := 2, project := "platform/b", currentRevision := "revB",
    revisions := [("revB", { number := 5 })], subject := "Fix B" }

/-- A sample plain thrown error. -/
def errBoom : GerritError := jsError "boom"

/-- The upstream rejection of a submit with body merge conflict. -/
def mergeConflictError : GerritError :=
  { responseData := some (.str "merge conflict"),
    message := "Request failed with status code 409" }

/-- An environment resolving two changes where the submit of change 2 is
rejected with the merge-conflict body and every other call succeeds. -/
def envMergeConflict : GerritEnv where
  queryChanges := fun _ _ => .ok [changeA, changeB]
  fetch := fun _ => .ok .null
  post := fun eff => if eff = submitEffect "2" then .error mergeConflictError else .ok ()
  stringify := fun _ => ""

/-- An environment where every call succeeds. -/
def envAllOk : GerritEnv where
  queryChanges := fun _ _ => .ok [changeA, changeB]
  fetch := fun _ => .ok .null
  post := fun _ => .ok ()
  stringify := fun _ => ""

/-- Claim C7: for every item of batch_review_submit_by_topic the step
sequence is exactly the review POST to the current revision carrying the
two labels Verified and Code-Review and the fixed audit message, the fixed
500 ms delay, then the submit POST carrying wait_for_merge; when the vote
fails the trace stops there, and in no case does the trace hold a retry or
any other mutating call. -/
theorem claim_C7_step_sequence (post : Effect → Except GerritError Unit)
    (vV vR : Int) (c : Change) :
    (reviewEffect vV vR (toString c.number) =
      Effect.postReview (toString c.number) "current"
        (some [("Verified", vV), ("Code-Review", vR)])
        (some "Batch review and submit by MCP Server")) ∧
    (submitEffect (toString c.number) = Effect.postSubmit (toString c.number) true) ∧
    (∀ e, post (reviewEffect vV vR (toString c.number)) = .error e →
      (processTopicChange post vV vR c).2 = [reviewEffect vV vR (toString c.number)]) ∧
    (post (reviewEffect vV vR (toString c.number)) = .ok () →
      (processTopicChange post vV vR c).2 =
        [reviewEffect vV vR (toString c.number), .sleep 500,
         submitEffect (toString c.number)]) := by
  refine ⟨rfl, rfl, ?_, ?_⟩
  · intro e he
    simp [processTopicChange, he]
  · intro hok
    simp only [processTopicChange, hok]
    cases hsub : post (submitEffect (toString c.number)) <;> simp [hsub]

/-- Witness for C7: with all calls succeeding, the trace of change 1 is
exactly vote, delay, submit. -/
theorem claim_C7_witness :
    (processTopicChange envAllOk.post 1 2 changeA).2 =
      [reviewEffect 1 2 (toString changeA.number), .sleep 500,
       submitEffect (toString changeA.number)] :=
  (claim_C7_step_sequence envAllOk.post 1 2 changeA).2.2.2 rfl

/-- Claim C6: every item contributes exactly one line, a success marker
with the item identifier and subject or a failure marker with the item
identifier and a detail that prefers the truthy upstream response body and
falls back to the local error message; concretely, a submit rejected with
upstream body merge conflict yields a failure line ending in merge
conflict, as in the two-change scenario of envMergeConflict. -/
theorem claim_C6_result_lines (post : Effect → Except GerritError Unit)
    (vV vR : Int) (c : Change) (rev : RevisionInfo) (e : GerritError) :
    ((processTopicChange post vV vR c).1 = processedLine (toString c.number) c.subject ∨
      ∃ e2, (processTopicChange post vV vR c).1 = failedLine (toString c.number) e2) ∧
    ((syncStep post c rev).1 = syncedLine c.number rev.number c.project c.subject ∨
      ∃ e2, post (downloadEffect c rev) = .error e2 ∧
        (syncStep post c rev).1 = syncFailedLine c.number c.project e2) ∧
    (∀ d, e.responseData = some d → jTruthy d = true → errDetail e = templateToString d) ∧
    (∀ d, e.responseData = some d → jTruthy d = false → errDetail e = e.message) ∧
    (e.responseData = none → errDetail e = e.message) ∧
    failedLine "2" mergeConflictError = "✗ Failed 2: merge conflict" ∧
    batchReviewSubmitByTopic envMergeConflict "t" none none =
      (.ok { text := processedLine "1" "Fix A" ++ newlineStr ++ "✗ Failed 2: merge conflict",
             isError := false },
       [.getChanges (topicQuery "t" ++ " status:open") none [],
        reviewEffect 1 2 "1", .sleep 500, submitEffect "1",
        reviewEffect 1 2 "2", .sleep 500, submitEffect "2"]) := by
  refine ⟨?_, ?_, ?_, ?_, ?_, rfl, rfl⟩
  · unfold processTopicChange
    cases hrev : post (reviewEffect vV vR (toString c.number)) with
    | error e2 => exact Or.inr ⟨e2, by simp [hrev]⟩
    | ok u =>
        cases hsub : post (submitEffect (toString c.number)) with
        | error e2 => exact Or.inr ⟨e2, by simp [hrev, hsub]⟩
        | ok u2 => exact Or.inl (by simp [hrev, hsub])
  · unfold syncStep
    cases hdl : post (downloadEffect c rev) with
    | error e2 => exact Or.inr ⟨e2, by simp [hdl], by simp [hdl]⟩
    | ok u => exact Or.inl (by simp [hdl])
  · intro d hd htr
    simp [errDetail, hd, htr]
  · intro d hd htr
    simp [errDetail, hd, htr]
  · intro hd
    simp [errDetail, hd]

/-- Witness for C6: the errDetail preference discharged at the concrete
merge-conflict error and at a plain error. -/
theorem claim_C6_witness :
    errDetail mergeConflictError = templateToString (.str "merge conflict") ∧
    errDetail errBoom = errBoom.message := by
  constructor
  · exact (claim_C6_result_lines envAllOk.post 1 2 changeA { number := 3 }
      mergeConflictError).2.2.1 _ rfl rfl
  · exact (claim_C6_result_lines envAllOk.post 1 2 changeA { number := 3 }
      errBoom).2.2.2.2.1 rfl

/-- Claim C3: in both batch operations, result line i corresponds to
resolved item i in the order the query returned the items — lines are the
elementwise image of the item list, of the same length, so processing
never reorders, drops, or duplicates items, for every pattern of per-item
outcomes of the environment. -/
theorem claim_C3_order_preserved (env : GerritEnv)
    (topic : String) (vV vR : Option Int) (t cid : Option String) (q : String)
    (changesB changesS : List Change) (revOf : Change → RevisionInfo)
    (hb : env.queryChanges (topicQuery topic ++ " status:open") [] = .ok changesB)
    (hbne : changesB ≠ [])
    (hq : syncQuery t cid = some q)
    (hs : env.queryChanges q ["CURRENT_REVISION"] = .ok changesS)
    (hsne : changesS ≠ [])
    (hrev : ∀ c ∈ changesS, lookupRev c = some (revOf c)) :
    (batchReviewSubmitByTopic env topic vV vR =
      (.ok { text := String.intercalate newlineStr
               (changesB.map fun c => (processTopicChange env.post (vV.getD 1) (vR.getD 2) c).1),
             isError := false },
       .getChanges (topicQuery topic ++ " status:open") none [] ::
         (changesB.map fun c => (processTopicChange env.post (vV.getD 1) (vR.getD 2) c).2).flatten) ∧
     (changesB.map fun c => (processTopicChange env.post (vV.getD 1) (vR.getD 2) c).1).length =
       changesB.length ∧
     (∀ (i : Nat) (c : Change), changesB[i]? = some c →
       (changesB.map fun c => (processTopicChange env.post (vV.getD 1) (vR.getD 2) c).1)[i]? =
         some ((processTopicChange env.post (vV.getD 1) (vR.getD 2) c).1))) ∧
    (syncGerritToLocal env t cid =
      (.ok { text := String.intercalate newlineStr
               (changesS.map fun c => (syncStep env.post c (revOf c)).1),
             isError := false },
       .getChanges q none ["CURRENT_REVISION"] ::
         (changesS.map fun c => (syncStep env.post c (revOf c)).2).flatten) ∧
     (changesS.map fun c => (syncStep env.post c (revOf c)).1).length = changesS.length ∧
     (∀ (i : Nat) (c : Change), changesS[i]? = some c →
       (changesS.map fun c => (syncStep env.post c (revOf c)).1)[i]? =
         some ((syncStep env.post c (revOf c)).1))) := by
  refine ⟨⟨?_, List.length_map _ _, ?_⟩, ⟨?_, List.length_map _ _, ?_⟩⟩
  · simp [batchReviewSubmitByTopic, hb, hbne, topicLoop_fst, topicLoop_snd]
  · intro i c hi
    simp [List.getElem?_map, hi]
  · simp [syncGerritToLocal, hq, hs, hsne, syncLoop_eq env.post revOf changesS hrev]
  · intro i c hi
    simp [List.getElem?_map, hi]

/-- Patchset extraction for the two sample changes. -/
def revOfSample : Change → RevisionInfo :=
  fun c => if c.number == 1 then { number := 3 } else { number := 5 }

/-- Witness for C3 at the two-change environment with all calls
succeeding. -/
theorem claim_C3_witness :
    ([changeA, changeB].map fun c => (processTopicChange envAllOk.post 1 2 c).1).length =
      [changeA, changeB].length ∧
    ([changeA, changeB].map fun c => (syncStep envAllOk.post c (revOfSample c)).1)[1]? =
      some ((syncStep envAllOk.post changeB (revOfSample changeB)).1) := by
  have h := claim_C3_order_preserved envAllOk "t" none none (some "x") none (topicQuery "x")
    [changeA, changeB] [changeA, changeB] revOfSample rfl (by decide) rfl rfl (by decide)
    (by intro c hc; simp [List.mem_cons] at hc; rcases hc with rfl | rfl <;> rfl)
  exact ⟨h.1.2.1, h.2.2.2 1 changeB rfl⟩

theorem syncStep_trace (post : Effect → Except GerritError Unit) (c : Change)
    (rev : RevisionInfo) : (syncStep post c rev).2 = [downloadEffect c rev] := by
  unfold syncStep
  cases post (downloadEffect c rev) <;> rfl

/-- Claim C1: in a batch of N resolved items where item k fails at some
step and every other item succeeds, the report has exactly N lines, line k
is the failure line, every other line is the success line, the steps of
item k after the failure point are never attempted (on a failed vote the
trace of item k stops at the vote), and every other item — including those
after k — is still fully processed; the batch still answers ok, so there
is no whole-batch abort. -/
theorem claim_C1_partial_failure_isolation :
    (∀ (env : GerritEnv) (topic : String) (vV vR : Option Int) (changes : List Change)
       (k : Nat) (ck : Change) (e : GerritError),
      env.queryChanges (topicQuery topic ++ " status:open") [] = .ok changes →
      changes[k]? = some ck →
      (∀ (i : Nat) (c : Change), i ≠ k → changes[i]? = some c →
        env.post (reviewEffect (vV.getD 1) (vR.getD 2) (toString c.number)) = .ok () ∧
        env.post (submitEffect (toString c.number)) = .ok ()) →
      (env.post (reviewEffect (vV.getD 1) (vR.getD 2) (toString ck.number)) = .error e ∨
       (env.post (reviewEffect (vV.getD 1) (vR.getD 2) (toString ck.number)) = .ok () ∧
        env.post (submitEffect (toString ck.number)) = .error e)) →
      ((batchReviewSubmitByTopic env topic vV vR).1 =
         .ok { text := String.intercalate newlineStr
                 (changes.map fun c =>
                   (processTopicChange env.post (vV.getD 1) (vR.getD 2) c).1),
               isError := false } ∧
       (changes.map fun c =>
         (processTopicChange env.post (vV.getD 1) (vR.getD 2) c).1).length =
           changes.length ∧
       (changes.map fun c =>
         (processTopicChange env.post (vV.getD 1) (vR.getD 2) c).1)[k]? =
           some (failedLine (toString ck.number) e) ∧
       (∀ (i : Nat) (c : Change), i ≠ k → changes[i]? = some c →
         (changes.map fun c =>
           (processTopicChange env.post (vV.getD 1) (vR.getD 2) c).1)[i]? =
             some (processedLine (toString c.number) c.subject)) ∧
       (∀ (i : Nat) (c : Change), i ≠ k → changes[i]? = some c →
         (processTopicChange env.post (vV.getD 1) (vR.getD 2) c).2 =
           [reviewEffect (vV.getD 1) (vR.getD 2) (toString c.number), .sleep 500,
            submitEffect (toString c.number)]) ∧
       (env.post (reviewEffect (vV.getD 1) (vR.getD 2) (toString ck.number)) = .error e →
         (processTopicChange env.post (vV.getD 1) (vR.getD 2) ck).2 =
           [reviewEffect (vV.getD 1) (vR.getD 2) (toString ck.number)]))) ∧
    (∀ (env : GerritEnv) (t cid : Option String) (q : String) (changes : List Change)
       (revOf : Change → RevisionInfo) (k : Nat) (ck : Change) (e : GerritError),
      syncQuery t cid = some q →
      env.queryChanges q ["CURRENT_REVISION"] = .ok changes →
      (∀ c ∈ changes, lookupRev c = some (revOf c)) →
      changes[k]? = some ck →
      (∀ (i : Nat) (c : Change), i ≠ k → changes[i]? = some c →
        env.post (downloadEffect c (revOf c)) = .ok ()) →
      env.post (downloadEffect ck (revOf ck)) = .error e →
      ((syncGerritToLocal env t cid).1 =
         .ok { text := String.intercalate newlineStr
                 (changes.map fun c => (syncStep env.post c (revOf c)).1),
               isError := false } ∧
       (changes.map fun c => (syncStep env.post c (revOf c)).1).length = changes.length ∧
       (changes.map fun c => (syncStep env.post c (revOf c)).1)[k]? =
         some (syncFailedLine ck.number ck.project e) ∧
       (∀ (i : Nat) (c : Change), i ≠ k → changes[i]? = some c →
         (changes.map fun c => (syncStep env.post c (revOf c)).1)[i]? =
           some (syncedLine c.number (revOf c).number c.project c.subject)) ∧
       (∀ (i : Nat) (c : Change), changes[i]? = some c →
         (syncStep env.post c (revOf c)).2 = [downloadEffect c (revOf c)]))) := by
  constructor
  · intro env topic vV vR changes k ck e hq hck hsucc hfail
    have hne : changes ≠ [] := by rintro rfl; simp at hck
    have hne2 : changes.isEmpty = false := by
      cases changes with
      | nil => exact absurd rfl hne
      | cons a l => rfl
    have hkline : (processTopicChange env.post (vV.getD 1) (vR.getD 2) ck).1 =
        failedLine (toString ck.number) e := by
      rcases hfail with hf | ⟨hr, hs2⟩
      · simp [processTopicChange, hf]
      · simp [processTopicChange, hr, hs2]
    refine ⟨?_, List.length_map _ _, ?_, ?_, ?_, ?_⟩
    · simp [batchReviewSubmitByTopic, hq, hne2, topicLoop_fst]
    · simp [List.getElem?_map, hck, hkline]
    · intro i c hik hic
      have hsc := hsucc i c hik hic
      simp [List.getElem?_map, hic, processTopicChange, hsc.1, hsc.2]
    · intro i c hik hic
      have hsc := hsucc i c hik hic
      simp [processTopicChange, hsc.1, hsc.2]
    · intro hf
      simp [processTopicChange, hf]
  · intro env t cid q changes revOf k ck e hq0 hqc hrev hck hsucc hfail
    have hne : changes ≠ [] := by rintro rfl; simp at hck
    have hne2 : changes.isEmpty = false := by
      cases changes with
      | nil => exact absurd rfl hne
      | cons a l => rfl
    refine ⟨?_, List.length_map _ _, ?_, ?_, ?_⟩
    · simp [syncGerritToLocal, hq0, hqc, hne2, syncLoop_eq env.post revOf changes hrev]
    · simp [List.getElem?_map, hck, syncStep, hfail]
    · intro i c hik hic
      simp [List.getElem?_map, hic, syncStep, hsucc i c hik hic]
    · intro i c _
      exact syncStep_trace env.post c (revOf c)

/-- An environment resolving two changes whose vote on change 1 fails. -/
def envReviewFail : GerritEnv where
  queryChanges := fun _ _ => .ok [changeA, changeB]
  fetch := fun _ => .ok .null
  post := fun eff => if eff = reviewEffect 1 2 "1" then .error errBoom else .ok ()
  stringify := fun _ => ""

/-- An environment resolving two changes whose download of change 1
fails. -/
def envDownloadFail : GerritEnv where
  queryChanges := fun _ _ => .ok [changeA, changeB]
  fetch := fun _ => .ok .null
  post := fun eff =>
    if eff = downloadEffect changeA (revOfSample changeA) then .error errBoom else .ok ()
  stringify := fun _ => ""

/-- Witness for C1: two-change batches where item 1 fails; its line is the
failure line, its submit is never attempted, and item 2 still succeeds. -/
theorem claim_C1_witness :
    ([changeA, changeB].map fun c => (processTopicChange envReviewFail.post 1 2 c).1)[0]? =
      some (failedLine "1" errBoom) ∧
    ([changeA, changeB].map fun c => (processTopicChange envReviewFail.post 1 2 c).1)[1]? =
      some (processedLine "2" "Fix B") ∧
    (processTopicChange envReviewFail.post 1 2 changeA).2 = [reviewEffect 1 2 "1"] ∧
    ([changeA, changeB].map fun c => (syncStep envDownloadFail.post c (revOfSample c)).1)[0]? =
      some (syncFailedLine 1 "platform/a" errBoom) ∧
    ([changeA, changeB].map fun c => (syncStep envDownloadFail.post c (revOfSample c)).1)[1]? =
      some (syncedLine 2 5 "platform/b" "Fix B") := by
  have hA := claim_C1_partial_failure_isolation.1 envReviewFail "t" none none
    [changeA, changeB] 0 changeA errBoom rfl rfl
    (by
      intro i c hik hic
      cases i with
      | zero => exact absurd rfl hik
      | succ n =>
          cases n with
          | zero =>
              simp at hic
              subst hic
              exact ⟨rfl, rfl⟩
          | succ m => simp at hic)
    (Or.inl rfl)
  have hB := claim_C1_partial_failure_isolation.2 envDownloadFail (some "x") none
    (topicQuery "x") [changeA, changeB] revOfSample 0 changeA errBoom rfl rfl
    (by intro c hc; simp [List.mem_cons] at hc; rcases hc with rfl | rfl <;> rfl)
    rfl
    (by
      intro i c hik hic
      cases i with
      | zero => exact absurd rfl hik
      | succ n =>
          cases n with
          | zero =>
              simp at hic
              subst hic
              rfl
          | succ m => simp at hic)
    rfl
  exact ⟨hA.2.2.1, hA.2.2.2.1 1 changeB (by decide) rfl, hA.2.2.2.2.2 rfl,
    hB.2.2.1, hB.2.2.2.1 1 changeB (by decide) rfl⟩

/-- Claim C8: every failure raised while handling a tool call is converted
at the boundary by the outer catch into a text response with the error
flag set; success responses pass through with the flag unset; and for the
batch tools a per-item failure is folded into the report, never thrown:
submit_changes always answers ok, and batch_review_submit_by_topic answers
ok whenever its query resolves, whatever the per-item outcomes.  The
handler is a total function, so nothing escapes the boundary. -/
theorem claim_C8_error_boundary (env : GerritEnv) (req : ToolRequest) :
    (∀ e, (dispatch env req).1 = .error e →
      handleToolCall env req =
        ({ text := "Error: " ++ topErrMessage e, isError := true }, (dispatch env req).2)) ∧
    (∀ r, (dispatch env req).1 = .ok r →
      handleToolCall env req = (r, (dispatch env req).2)) ∧
    (∀ r, (dispatch env req).1 = .ok r → r.isError = false) ∧
    (∀ cids, ∃ r, (dispatch env (.submitChangesReq cids)).1 = .ok r) ∧
    (∀ t vV vR changes,
      env.queryChanges (topicQuery t ++ " status:open") [] = .ok changes →
      ∃ r, (dispatch env (.batchReviewSubmitByTopicReq t vV vR)).1 = .ok r) := by
  refine ⟨?_, ?_, fun r hr => dispatch_ok_isError_false env req r hr, ?_, ?_⟩
  · intro e he
    rcases hd : dispatch env req with ⟨res, tr⟩
    rw [hd] at he
    simp only at he
    subst he
    simp [handleToolCall, hd]
  · intro r hr
    rcases hd : dispatch env req with ⟨res, tr⟩
    rw [hd] at hr
    simp only at hr
    subst hr
    simp [handleToolCall, hd]
  · intro cids
    exact ⟨_, rfl⟩
  · intro t vV vR changes hq
    simp only [dispatch, batchReviewSubmitByTopic, hq]
    split
    · exact ⟨_, rfl⟩
    · exact ⟨_, rfl⟩

/-- Witness for C8: the thrown missing-selector error is converted to an
error-flagged text, a successful set_review passes through flag-unset, and
a batch over a resolving query answers ok. -/
theorem claim_C8_witness :
    handleToolCall envEmpty (ToolRequest.syncGerritToLocalReq none none) =
      ({ text := "Error: " ++ topErrMessage (jsError "Either topic or changeId must be provided"),
         isError := true },
       (dispatch envEmpty (ToolRequest.syncGerritToLocalReq none none)).2) ∧
    handleToolCall envEmpty (ToolRequest.setReviewReq "42" none none none) =
      ({ text := "Successfully posted review to " ++ "42", isError := false },
       (dispatch envEmpty (ToolRequest.setReviewReq "42" none none none)).2) ∧
    (∃ r, (dispatch envEmpty (.batchReviewSubmitByTopicReq "t" none none)).1 = .ok r) := by
  refine ⟨?_, ?_, ?_⟩
  · exact (claim_C8_error_boundary envEmpty (ToolRequest.syncGerritToLocalReq none none)).1
      (jsError "Either topic or changeId must be provided") rfl
  · exact (claim_C8_error_boundary envEmpty (ToolRequest.setReviewReq "42" none none none)).2.1
      { text := "Successfully posted review to " ++ "42", isError := false } rfl
  · exact (claim_C8_error_boundary envEmpty (ToolRequest.unknownReq "x")).2.2.2.2
      "t" none none [] rfl

/-- Counterexample to C9 as stated: with the topic supplied as the empty
string together with a change identifier, the query sent to the changes
endpoint is the change identifier, not the topic query — the change
identifier is not ignored. -/
theorem claim_C9_counterexample :
    syncQuery (some "") (some "12345") = some "12345" ∧
    topicQuery "" ≠ "12345" ∧
    (syncGerritToLocal envEmpty (some "") (some "12345")).2 =
      [.getChanges "12345" none ["CURRENT_REVISION"]] := by
  refine ⟨rfl, by decide, rfl⟩

/-- Amended C9: whenever the supplied topic is a nonempty string, the
target set is resolved from the topic alone and the supplied change
identifier is silently ignored; a topic equal to the empty string is
treated as absent (JavaScript falsiness of the empty string). -/
theorem claim_C9_topic_precedence (env : GerritEnv) (t : String) (ht : t ≠ "")
    (cid : Option String) :
    syncQuery (some t) cid = some (topicQuery t) ∧
    syncGerritToLocal env (some t) cid = syncGerritToLocal env (some t) none := by
  have htr : optTruthy (some t) = true := by simp [optTruthy, ht]
  have h1 : syncQuery (some t) cid = some (topicQuery t) := by
    simp [syncQuery, htr]
  have h2 : syncQuery (some t) none = some (topicQuery t) := by
    simp [syncQuery, htr]
  refine ⟨h1, ?_⟩
  unfold syncGerritToLocal
  rw [h1, h2]

/-- Witness for the amended C9 at a concrete nonempty topic. -/
theorem claim_C9_witness :
    syncQuery (some "fix") (some "123") = some (topicQuery "fix") ∧
    syncGerritToLocal envEmpty (some "fix") (some "123") =
      syncGerritToLocal envEmpty (some "fix") none :=
  claim_C9_topic_precedence envEmpty "fix" (by decide) (some "123")
